import Mathlib

/-!
Shallow embedding of the financial underwriting engine of the
AirBnbScraper repository (src/calculator.py), over exact rationals.
Python floats are modelled as `ℚ`, Python ints as `ℤ`, Python dict
fields that may be absent as `Option` fields, and Python's
`float('inf')` sentinel by an explicit inductive.
-/

namespace AirbnbUW

/-- The `FinancialInputs` dataclass of src/calculator.py, with the same
field names and default values (floats as exact rationals). -/
structure FinancialInputs where
  purchase_price : ℚ := 0
  down_payment_percent : ℚ := 20
  loan_interest_rate : ℚ := 13/2
  loan_term_years : ℤ := 30
  closing_costs : ℚ := 0
  renovation_costs : ℚ := 0
  furniture_costs : ℚ := 15000
  property_tax_monthly : ℚ := 0
  insurance_monthly : ℚ := 200
  hoa_fees_monthly : ℚ := 0
  utilities_monthly : ℚ := 150
  internet_monthly : ℚ := 50
  maintenance_monthly : ℚ := 200
  property_management_percent : ℚ := 10
  average_stay_length : ℚ := 3
  vacancy_rate : ℚ := 3/20
  annual_expense_growth : ℚ := 3/100
  annual_revenue_growth : ℚ := 1/50
  deriving DecidableEq

/-- A scraped property record (subject or comparable): a Python dict in
which any field may be absent; `dict.get(key, default)` becomes
`Option.getD`. -/
structure PropertyRecord where
  price_per_night : Option ℚ := none
  cleaning_fee : Option ℚ := none
  num_bedrooms : Option ℚ := none
  num_bathrooms : Option ℚ := none
  num_reviews : Option ℤ := none
  availability_365 : Option ℤ := none
  deriving DecidableEq

/-- A Python value as it can arrive in the override mapping given to
`_update_inputs`: an int, a float, or a string. -/
inductive PyVal where
  | pint : ℤ → PyVal
  | pfloat : ℚ → PyVal
  | pstr : String → PyVal
  deriving DecidableEq

/-- Value of a list of decimal digit characters. -/
def digitsVal (l : List Char) : ℕ :=
  l.foldl (fun a c => 10 * a + (c.toNat - 48)) 0

/-- Split a character list at the first dot, if any. -/
def splitAtDot : List Char → List Char × Option (List Char)
  | [] => ([], none)
  | c :: rest =>
    if c = '.' then ([], some rest)
    else
      let p := splitAtDot rest
      (c :: p.1, p.2)

/-- Models Python's built-in `float()` on a plain decimal string:
an optional sign, then digits with at most one dot and at least one
digit; anything else (e.g. "not-a-number") raises, which we model as
`none`. -/
def parseFloatStr (s : String) : Option ℚ :=
  let core : List Char → Option ℚ := fun l =>
    let p := splitAtDot l
    match p.2 with
    | none =>
      if p.1 ≠ [] ∧ p.1.all Char.isDigit then some (digitsVal p.1) else none
    | some frac =>
      if (p.1 ++ frac) ≠ [] ∧ p.1.all Char.isDigit ∧ frac.all Char.isDigit then
        some ((digitsVal p.1 : ℚ) + (digitsVal frac : ℚ) / (10 : ℚ) ^ frac.length)
      else none
  match s.toList with
  | '+' :: rest => core rest
  | '-' :: rest => (core rest).map Neg.neg
  | l => core l

/-- Models Python's built-in `int()` on a string: an optional sign then
a nonempty run of digits only; a string such as "20.5" raises, which we
model as `none`. -/
def parseIntStr (s : String) : Option ℤ :=
  let core : List Char → Option ℤ := fun l =>
    if l ≠ [] ∧ l.all Char.isDigit then some (digitsVal l : ℤ) else none
  match s.toList with
  | '+' :: rest => core rest
  | '-' :: rest => (core rest).map Neg.neg
  | l => core l

/-- Truncation toward zero, the semantics of Python's `int()` applied to
a number. -/
def ratTrunc (q : ℚ) : ℤ :=
  Int.sign q.num * (q.num.natAbs / q.den : ℕ)

/-- Models Python's `float(value)` on an int, float or string value:
`some` on success, `none` when Python would raise TypeError/ValueError. -/
def pyFloat : PyVal → Option ℚ
  | .pint n => some (n : ℚ)
  | .pfloat q => some q
  | .pstr s => parseFloatStr s

/-- Models Python's `int(value)` on an int, float or string value:
a float is truncated toward zero; a non-integer string fails. -/
def pyInt : PyVal → Option ℤ
  | .pint n => some n
  | .pfloat q => some (ratTrunc q)
  | .pstr s => parseIntStr s

/-- The attribute names of `FinancialInputs`, i.e. the keys for which
`hasattr(self.inputs, key)` holds in `_update_inputs`. -/
def knownKeys : List String :=
  ["purchase_price", "down_payment_percent", "loan_interest_rate",
   "loan_term_years", "closing_costs", "renovation_costs", "furniture_costs",
   "property_tax_monthly", "insurance_monthly", "hoa_fees_monthly",
   "utilities_monthly", "internet_monthly", "maintenance_monthly",
   "property_management_percent", "average_stay_length", "vacancy_rate",
   "annual_expense_growth", "annual_revenue_growth"]

/-- One iteration of `AirbnbUnderwriter._update_inputs` (calculator.py
lines 191-200): if the key names a `FinancialInputs` attribute, coerce
the value to the type of the attribute's current value (`float` for all
fields except the `int` field `loan_term_years`) and set it; if the
coercion raises (modelled by `none`) or the key is unknown, warn and
leave the inputs unchanged. Total: the merge never raises. -/
def setInput (inp : FinancialInputs) (key : String) (v : PyVal) : FinancialInputs :=
  if key = "purchase_price" then
    match pyFloat v with
    | some q => { inp with purchase_price := q }
    | none => inp
  else if key = "down_payment_percent" then
    match pyFloat v with
    | some q => { inp with down_payment_percent := q }
    | none => inp
  else if key = "loan_interest_rate" then
    match pyFloat v with
    | some q => { inp with loan_interest_rate := q }
    | none => inp
  else if key = "loan_term_years" then
    match pyInt v with
    | some n => { inp with loan_term_years := n }
    | none => inp
  else if key = "closing_costs" then
    match pyFloat v with
    | some q => { inp with closing_costs := q }
    | none => inp
  else if key = "renovation_costs" then
    match pyFloat v with
    | some q => { inp with renovation_costs := q }
    | none => inp
  else if key = "furniture_costs" then
    match pyFloat v with
    | some q => { inp with furniture_costs := q }
    | none => inp
  else if key = "property_tax_monthly" then
    match pyFloat v with
    | some q => { inp with property_tax_monthly := q }
    | none => inp
  else if key = "insurance_monthly" then
    match pyFloat v with
    | some q => { inp with insurance_monthly := q }
    | none => inp
  else if key = "hoa_fees_monthly" then
    match pyFloat v with
    | some q => { inp with hoa_fees_monthly := q }
    | none => inp
  else if key = "utilities_monthly" then
    match pyFloat v with
    | some q => { inp with utilities_monthly := q }
    | none => inp
  else if key = "internet_monthly" then
    match pyFloat v with
    | some q => { inp with internet_monthly := q }
    | none => inp
  else if key = "maintenance_monthly" then
    match pyFloat v with
    | some q => { inp with maintenance_monthly := q }
    | none => inp
  else if key = "property_management_percent" then
    match pyFloat v with
    | some q => { inp with property_management_percent := q }
    | none => inp
  else if key = "average_stay_length" then
    match pyFloat v with
    | some q => { inp with average_stay_length := q }
    | none => inp
  else if key = "vacancy_rate" then
    match pyFloat v with
    | some q => { inp with vacancy_rate := q }
    | none => inp
  else if key = "annual_expense_growth" then
    match pyFloat v with
    | some q => { inp with annual_expense_growth := q }
    | none => inp
  else if key = "annual_revenue_growth" then
    match pyFloat v with
    | some q => { inp with annual_revenue_growth := q }
    | none => inp
  else inp

/-- `AirbnbUnderwriter._update_inputs`: fold the override mapping's
items over `setInput`. -/
def updateInputs (inp : FinancialInputs) (overrides : List (String × PyVal)) :
    FinancialInputs :=
  overrides.foldl (fun i kv => setInput i kv.1 kv.2) inp

/-- `if not subject_property`: the Python dict is empty. In this model
every field is absent. -/
def PropertyRecord.isEmpty (p : PropertyRecord) : Bool :=
  p.price_per_night = none ∧ p.cleaning_fee = none ∧ p.num_bedrooms = none ∧
  p.num_bathrooms = none ∧ p.num_reviews = none ∧ p.availability_365 = none

/-- `AirbnbUnderwriter._estimate_property_value` (calculator.py lines
202-241): requires `price_per_night`, `num_bedrooms`, `num_bathrooms`;
returns `none` for an empty record or when any of the three is missing,
otherwise 15x annualized gross room revenue adjusted by bedroom and
bathroom multipliers and clamped into [50000, 5000000]. -/
def estimatePropertyValue (subject : PropertyRecord) : Option ℚ :=
  if subject.isEmpty then none
  else
    match subject.price_per_night, subject.num_bedrooms, subject.num_bathrooms with
    | some price_per_night, some num_bedrooms, some num_bathrooms =>
      let base_value := price_per_night * 365 * 15
      let bedroom_multiplier := 1 + num_bedrooms * (1/5)
      let bathroom_multiplier := 1 + num_bathrooms * (1/10)
      let estimated_value := base_value * bedroom_multiplier * bathroom_multiplier
      some (max 50000 (min estimated_value 5000000))
    | _, _, _ => none

/-- Lines 137-140 of `analyze_investment`: when the purchase price is
unset (zero), use the estimate, or the fixed default 250000 when no
estimate is produced. -/
def resolvePurchasePrice (inp : FinancialInputs) (subject : PropertyRecord) : ℚ :=
  if inp.purchase_price = 0 then
    match estimatePropertyValue subject with
    | some v => v
    | none => 250000
  else inp.purchase_price

/-- Result of `AirbnbUnderwriter._calculate_loan_metrics`. -/
structure LoanMetrics where
  down_payment : ℚ
  loan_amount : ℚ
  monthly_payment : ℚ
  total_investment : ℚ
  deriving DecidableEq

/-- `AirbnbUnderwriter._calculate_loan_metrics` (calculator.py lines
243-275): down payment, loan principal, amortized monthly payment and
total cash investment, with the source's guard order (`n = 0` first,
then `r > 0`, then the interest-free case). -/
def calculateLoanMetrics (inp : FinancialInputs) : LoanMetrics :=
  let down_payment := inp.purchase_price * (inp.down_payment_percent / 100)
  let loan_amount := inp.purchase_price - down_payment
  let monthly_interest_rate := inp.loan_interest_rate / 100 / 12
  let num_payments : ℤ := inp.loan_term_years * 12
  let monthly_payment :=
    if num_payments = 0 then loan_amount
    else if monthly_interest_rate > 0 then
      loan_amount * (monthly_interest_rate * (1 + monthly_interest_rate) ^ num_payments) /
        ((1 + monthly_interest_rate) ^ num_payments - 1)
    else if num_payments > 0 then loan_amount / (num_payments : ℚ)
    else loan_amount
  { down_payment := down_payment
    loan_amount := loan_amount
    monthly_payment := monthly_payment
    total_investment := down_payment + inp.closing_costs +
      inp.renovation_costs + inp.furniture_costs }

/-- The output record of one revenue case, the `RevenueScenario`
dataclass of src/calculator.py. -/
structure RevenueScenarioData where
  scenario_name : String
  annual_revenue : ℚ
  monthly_revenue : ℚ
  occupancy_rate : ℚ
  adr : ℚ
  cleaning_revenue : ℚ
  total_nights_booked : ℤ
  deriving DecidableEq

/-- The three case keys of `_analyze_revenue_scenarios`. -/
inductive ScenKey where
  | best_case : ScenKey
  | average_case : ScenKey
  | worst_case : ScenKey
  deriving DecidableEq

/-- `adr_factor` of `scenarios_params` (calculator.py lines 321-337). -/
def adrFactor : ScenKey → ℚ
  | .best_case => 11/10
  | .average_case => 1
  | .worst_case => 17/20

/-- `occ_factor` of `scenarios_params`. -/
def occFactor : ScenKey → ℚ
  | .best_case => 6/5
  | .average_case => 1
  | .worst_case => 7/10

/-- `name` of `scenarios_params`. -/
def scenName : ScenKey → String
  | .best_case => "Best Case"
  | .average_case => "Average Case"
  | .worst_case => "Worst Case"

/-- `subject_property.get('price_per_night', 100.0)` (line 289). -/
def subjectAdr (subject : PropertyRecord) : ℚ :=
  subject.price_per_night.getD 100

/-- `subject_property.get('cleaning_fee', 0.0)` (line 290). -/
def subjectCleaningFee (subject : PropertyRecord) : ℚ :=
  subject.cleaning_fee.getD 0

/-- The ADR contributed by one comparable to `comp_adrs` (line 297):
its own nightly price, or the subject's when absent. -/
def compAdr (subject : PropertyRecord) (comp : PropertyRecord) : ℚ :=
  comp.price_per_night.getD (subjectAdr subject)

/-- The cleaning fee contributed by one comparable to
`comp_cleaning_fees` (line 298). -/
def compCleaningFee (subject : PropertyRecord) (comp : PropertyRecord) : ℚ :=
  comp.cleaning_fee.getD (subjectCleaningFee subject)

/-- The review-based occupancy heuristic for one comparable
(calculator.py lines 300-312): with reviews and positive availability,
`min(0.95, num_reviews * 4 * average_stay_length / availability_365)`
where availability defaults to 300 days; otherwise 0.50. -/
def compOccupancy (inp : FinancialInputs) (comp : PropertyRecord) : ℚ :=
  let num_reviews := comp.num_reviews.getD 0
  let availability_365 := comp.availability_365.getD 300
  if num_reviews > 0 ∧ availability_365 > 0 then
    let estimated_stays_per_year : ℤ := num_reviews * 4
    let estimated_nights_per_year : ℚ :=
      (estimated_stays_per_year : ℚ) * inp.average_stay_length
    min (19/20) (estimated_nights_per_year / (availability_365 : ℚ))
  else 1/2

/-- `statistics.mean` of a nonempty list (sum divided by length). -/
def mean (l : List ℚ) : ℚ :=
  l.sum / (l.length : ℚ)

/-- `comp_adrs` (lines 292-297). -/
def compAdrList (subject : PropertyRecord) (comps : List PropertyRecord) : List ℚ :=
  comps.map (compAdr subject)

/-- `comp_cleaning_fees`. -/
def compCleaningFeeList (subject : PropertyRecord) (comps : List PropertyRecord) :
    List ℚ :=
  comps.map (compCleaningFee subject)

/-- `comp_occupancies`. -/
def compOccupancyList (inp : FinancialInputs) (comps : List PropertyRecord) :
    List ℚ :=
  comps.map (compOccupancy inp)

/-- `avg_market_adr` (line 315): mean of the comparables' ADRs, or the
subject's ADR when the comparable list is empty. -/
def avgMarketAdr (subject : PropertyRecord) (comps : List PropertyRecord) : ℚ :=
  if comps = [] then subjectAdr subject else mean (compAdrList subject comps)

/-- `avg_market_occupancy` (line 316): mean of the derived occupancies,
or the fixed default 0.65 when the comparable list is empty. -/
def avgMarketOccupancy (inp : FinancialInputs) (comps : List PropertyRecord) : ℚ :=
  if comps = [] then 13/20 else mean (compOccupancyList inp comps)

/-- `avg_market_cleaning_fee` (line 317). -/
def avgMarketCleaningFee (subject : PropertyRecord) (comps : List PropertyRecord) :
    ℚ :=
  if comps = [] then subjectCleaningFee subject
  else mean (compCleaningFeeList subject comps)

/-- One iteration of the scenario loop of `_analyze_revenue_scenarios`
(calculator.py lines 341-368): scenario ADR from the market average
(subject-anchored for the worst case), effective occupancy capped at
0.95 (vacancy applied except in the best case) and floored at 0.10,
nights booked truncated to an int, and room plus cleaning revenue. -/
def scenarioCase (inp : FinancialInputs) (subject : PropertyRecord)
    (comps : List PropertyRecord) (k : ScenKey) : RevenueScenarioData :=
  let current_adr_base :=
    if k = ScenKey.worst_case then subjectAdr subject else avgMarketAdr subject comps
  let scenario_adr := current_adr_base * adrFactor k
  let base_scenario_occupancy := avgMarketOccupancy inp comps * occFactor k
  let effective_occupancy0 :=
    min (19/20) (base_scenario_occupancy *
      (if k ≠ ScenKey.best_case then 1 - inp.vacancy_rate else 1))
  let effective_occupancy := max (1/10) effective_occupancy0
  let total_nights_booked : ℤ := ratTrunc (365 * effective_occupancy)
  let stays_per_year : ℚ :=
    if inp.average_stay_length > 0 then
      (total_nights_booked : ℚ) / inp.average_stay_length
    else 0
  let room_revenue := (total_nights_booked : ℚ) * scenario_adr
  let cleaning_revenue_total := stays_per_year * avgMarketCleaningFee subject comps
  let annual_gross_revenue := room_revenue + cleaning_revenue_total
  { scenario_name := scenName k
    annual_revenue := annual_gross_revenue
    monthly_revenue := annual_gross_revenue / 12
    occupancy_rate := effective_occupancy
    adr := scenario_adr
    cleaning_revenue := cleaning_revenue_total
    total_nights_booked := total_nights_booked }

/-- Net monthly cash flow of a scenario (`_calculate_cash_flows`,
line 421): gross monthly revenue minus operating expenses minus the
mortgage payment. -/
def monthlyCashFlow (scen : RevenueScenarioData)
    (monthly_operating_expenses monthly_mortgage_payment : ℚ) : ℚ :=
  scen.monthly_revenue - monthly_operating_expenses - monthly_mortgage_payment

/-- Annual net cash flow of a scenario (line 422). -/
def annualCashFlow (scen : RevenueScenarioData)
    (monthly_operating_expenses monthly_mortgage_payment : ℚ) : ℚ :=
  monthlyCashFlow scen monthly_operating_expenses monthly_mortgage_payment * 12

/-- A Python float that may be the `float('inf')` sentinel. -/
inductive PyNum where
  | val : ℚ → PyNum
  | posInf : PyNum
  deriving DecidableEq

/-- Payback years of one scenario (`_calculate_roi_metrics`, line 448):
`total_investment / annual_cash_flow` when the annual cash flow is
positive, else the `float('inf')` sentinel; a total function, so the
computation never raises. -/
def paybackYears (total_investment annual_cash_flow : ℚ) : PyNum :=
  if annual_cash_flow > 0 then .val (total_investment / annual_cash_flow)
  else .posInf

/-- ROI percentage of one scenario (line 447). -/
def roiPercent (total_investment annual_cash_flow : ℚ) : ℚ :=
  if total_investment > 0 then annual_cash_flow / total_investment * 100 else 0

/-- The reference parameter set of the spec's known-payment property:
price 300000, 20% down, 6% annual rate, 30-year term. -/
def refInputs : FinancialInputs :=
  { purchase_price := 300000, down_payment_percent := 20,
    loan_interest_rate := 6, loan_term_years := 30 }

/-- Claim C1: for every parameter set with non-negative purchase price,
the monthly payment follows the standard amortization formula
`L * r * (1+r)^n / ((1+r)^n - 1)` when `r > 0` and `n > 0`, equals
`L / n` when `r = 0` and `n > 0`, and equals `L` when `n = 0`; and the
reference inputs (300000 price, 20% down, 6% rate, 30 years) give a
240000 loan with a monthly payment within 0.01 of 1438.92. -/
theorem loan_payment_matches_amortization_formula (inp : FinancialInputs)
    (hpp : 0 ≤ inp.purchase_price) :
    (0 < inp.loan_interest_rate / 100 / 12 → 0 < inp.loan_term_years * 12 →
      (calculateLoanMetrics inp).monthly_payment =
        (calculateLoanMetrics inp).loan_amount *
          (inp.loan_interest_rate / 100 / 12 *
            (1 + inp.loan_interest_rate / 100 / 12) ^ (inp.loan_term_years * 12)) /
          ((1 + inp.loan_interest_rate / 100 / 12) ^ (inp.loan_term_years * 12) - 1)) ∧
    (inp.loan_interest_rate / 100 / 12 = 0 → 0 < inp.loan_term_years * 12 →
      (calculateLoanMetrics inp).monthly_payment =
        (calculateLoanMetrics inp).loan_amount / ((inp.loan_term_years * 12 : ℤ) : ℚ)) ∧
    (inp.loan_term_years * 12 = 0 →
      (calculateLoanMetrics inp).monthly_payment = (calculateLoanMetrics inp).loan_amount) ∧
    (calculateLoanMetrics refInputs).loan_amount = 240000 ∧
    |(calculateLoanMetrics refInputs).monthly_payment - 143892/100| < 1/100 := by
  refine ⟨fun hr hn => ?_, fun hr hn => ?_, fun hn => ?_, ?_, ?_⟩
  · simp only [calculateLoanMetrics]
    split_ifs <;> first | rfl | omega | linarith
  · simp only [calculateLoanMetrics]
    split_ifs <;> first | rfl | omega | linarith
  · simp only [calculateLoanMetrics]
    split_ifs <;> first | rfl | omega | linarith
  · norm_num [calculateLoanMetrics, refInputs]
  · norm_num [calculateLoanMetrics, refInputs, abs_lt]

/-- Witness for C1: the amortization-formula case applied to the
reference parameter set, whose hypotheses hold concretely. -/
theorem loan_payment_matches_amortization_formula_witness :
    0 ≤ refInputs.purchase_price ∧
    (calculateLoanMetrics refInputs).monthly_payment =
      (calculateLoanMetrics refInputs).loan_amount *
        (refInputs.loan_interest_rate / 100 / 12 *
          (1 + refInputs.loan_interest_rate / 100 / 12) ^ (refInputs.loan_term_years * 12)) /
        ((1 + refInputs.loan_interest_rate / 100 / 12) ^ (refInputs.loan_term_years * 12) - 1) :=
  ⟨by norm_num [refInputs],
   (loan_payment_matches_amortization_formula refInputs (by norm_num [refInputs])).1
     (by norm_num [refInputs]) (by norm_num [refInputs])⟩

/-- Counterexample to claim C2 as stated: with vacancy rate 0.9 and an
empty comparable list, the code floors the average-case occupancy at
0.10, so it does not equal `0.65 * (1 - 0.9) = 0.065`. -/
theorem average_case_empty_comps_claim_cex :
    ¬ ((scenarioCase { vacancy_rate := 9/10 } { price_per_night := some 100 } []
          ScenKey.average_case).adr = 100 ∧
       (scenarioCase { vacancy_rate := 9/10 } { price_per_night := some 100 } []
          ScenKey.average_case).occupancy_rate = (13/20) * (1 - 9/10)) := by
  rintro ⟨-, h⟩
  revert h
  simp +decide only [scenarioCase, avgMarketOccupancy, occFactor, min_def, max_def]
  norm_num

/-- Claim C2 as amended: with an empty comparable list the average-case
ADR equals the subject's nightly price, and the average-case occupancy
equals `0.65 * (1 - vacancy_rate)` clamped into [0.10, 0.95] (hence the
unclamped product exactly whenever it already lies in that range). -/
theorem average_case_empty_comps_clamped (inp : FinancialInputs)
    (subject : PropertyRecord) (ppn : ℚ) (h : subject.price_per_night = some ppn) :
    (scenarioCase inp subject [] ScenKey.average_case).adr = ppn ∧
    (scenarioCase inp subject [] ScenKey.average_case).occupancy_rate =
      max (1/10) (min (19/20) ((13/20) * (1 - inp.vacancy_rate))) := by
  constructor <;>
    simp +decide [scenarioCase, avgMarketAdr, avgMarketOccupancy, subjectAdr, h,
      adrFactor, occFactor]

/-- Witness for C2: the amended statement at the default vacancy rate
0.15 and a subject priced at 100 per night. -/
theorem average_case_empty_comps_clamped_witness :
    (scenarioCase {} { price_per_night := some 100 } [] ScenKey.average_case).adr = 100 ∧
    (scenarioCase {} { price_per_night := some 100 } []
        ScenKey.average_case).occupancy_rate =
      max (1/10) (min (19/20) ((13/20) * (1 - ({} : FinancialInputs).vacancy_rate))) :=
  average_case_empty_comps_clamped {} { price_per_night := some 100 } 100 rfl

/-- Claim C3: the override merge is lenient. A known float-typed key
whose value cannot be coerced leaves the inputs unchanged, the int-typed
key `loan_term_years` behaves the same, an unknown key is ignored, and
in particular `purchase_price = "not-a-number"` is a no-op; `setInput`
is total, so the merge never raises. -/
theorem override_merge_is_lenient (inp : FinancialInputs) (v : PyVal) (key : String) :
    (∀ k ∈ knownKeys, k ≠ "loan_term_years" → pyFloat v = none → setInput inp k v = inp) ∧
    (pyInt v = none → setInput inp "loan_term_years" v = inp) ∧
    (key ∉ knownKeys → setInput inp key v = inp) ∧
    setInput inp "purchase_price" (PyVal.pstr "not-a-number") = inp := by
  refine ⟨?_, ?_, ?_, ?_⟩
  · intro k hk hne hv
    fin_cases hk <;> simp_all [setInput]
  · intro hv
    simp [setInput, hv]
  · intro hk
    simp only [knownKeys, List.mem_cons, List.mem_singleton, not_or] at hk
    obtain ⟨h1, h2, h3, h4, h5, h6, h7, h8, h9, h10, h11, h12, h13, h14, h15, h16,
      h17, h18⟩ := hk
    simp [setInput, h1, h2, h3, h4, h5, h6, h7, h8, h9, h10, h11, h12, h13, h14,
      h15, h16, h17, h18]
  · rfl

/-- Witness for C3: concrete uncoercible overrides for a float key, the
int key, an unknown key, and the spec's "not-a-number" example. -/
theorem override_merge_is_lenient_witness :
    setInput {} "insurance_monthly" (PyVal.pstr "abc") = {} ∧
    setInput {} "loan_term_years" (PyVal.pstr "abc") = {} ∧
    setInput {} "bogus_key" (PyVal.pstr "abc") = {} ∧
    setInput {} "purchase_price" (PyVal.pstr "not-a-number") = {} := by
  have h := override_merge_is_lenient {} (PyVal.pstr "abc") "bogus_key"
  exact ⟨h.1 "insurance_monthly" (by simp [knownKeys]) (by decide) rfl,
    h.2.1 rfl, h.2.2.1 (by decide),
    (override_merge_is_lenient {} (PyVal.pstr "abc") "bogus_key").2.2.2⟩

/-- Claim C4: a comparable with reviews and positive availability gets
occupancy `min(0.95, review_count * 4 * average_stay_length /
availability_days)` (review-to-stay multiplier K = 4); a comparable with
no reviews gets 0.50. -/
theorem comp_occupancy_review_heuristic (inp : FinancialInputs)
    (comp comp2 : PropertyRecord) (rc av : ℤ)
    (hrc : comp.num_reviews = some rc) (hrcpos : 0 < rc)
    (hav : comp.availability_365 = some av) (havpos : 0 < av)
    (h2 : comp2.num_reviews = none ∨ comp2.num_reviews = some 0) :
    compOccupancy inp comp =
      min (19/20) ((rc : ℚ) * 4 * inp.average_stay_length / (av : ℚ)) ∧
    compOccupancy inp comp2 = 1/2 := by
  constructor
  · simp only [compOccupancy, hrc, hav, Option.getD_some]
    rw [if_pos ⟨hrcpos, havpos⟩]
    push_cast
    ring_nf
  · rcases h2 with h2 | h2 <;> simp [compOccupancy, h2]

/-- Witness for C4: a comparable with 10 reviews and 300 available days
under the default stay length, and a review-less comparable. -/
theorem comp_occupancy_review_heuristic_witness :
    compOccupancy {} { num_reviews := some 10, availability_365 := some 300 } =
      min (19/20) ((10 : ℚ) * 4 * ({} : FinancialInputs).average_stay_length / 300) ∧
    compOccupancy {} {} = 1/2 :=
  comp_occupancy_review_heuristic {} _ {} 10 300 rfl (by norm_num) rfl (by norm_num)
    (Or.inl rfl)

/-- Claim C5: down payment plus loan amount equals the purchase price
exactly, for every parameter set with non-negative purchase price. -/
theorem down_payment_plus_loan_eq_price (inp : FinancialInputs)
    (hpp : 0 ≤ inp.purchase_price) :
    (calculateLoanMetrics inp).down_payment + (calculateLoanMetrics inp).loan_amount =
      inp.purchase_price := by
  simp only [calculateLoanMetrics]
  ring

/-- Witness for C5: the identity at the reference parameter set. -/
theorem down_payment_plus_loan_eq_price_witness :
    (calculateLoanMetrics refInputs).down_payment +
      (calculateLoanMetrics refInputs).loan_amount = refInputs.purchase_price :=
  down_payment_plus_loan_eq_price refInputs (by norm_num [refInputs])

/-- Claim C6: for every scenario, a non-positive annual cash flow yields
the positive-infinity payback sentinel and a positive annual cash flow
yields `total_investment / annual_cash_flow`; `paybackYears` is total,
so the computation never raises. -/
theorem payback_years_sentinel (inp : FinancialInputs) (subject : PropertyRecord)
    (comps : List PropertyRecord) (opEx mortgage ti : ℚ) (k : ScenKey) :
    (annualCashFlow (scenarioCase inp subject comps k) opEx mortgage ≤ 0 →
      paybackYears ti (annualCashFlow (scenarioCase inp subject comps k) opEx mortgage) =
        PyNum.posInf) ∧
    (0 < annualCashFlow (scenarioCase inp subject comps k) opEx mortgage →
      paybackYears ti (annualCashFlow (scenarioCase inp subject comps k) opEx mortgage) =
        PyNum.val (ti / annualCashFlow (scenarioCase inp subject comps k) opEx mortgage)) := by
  unfold paybackYears
  constructor
  · intro h
    rw [if_neg (by linarith)]
  · intro h
    rw [if_pos h]

/-- Witness for C6: the default average case with empty comparables has
annual cash flow 20100; a mortgage of 10000 per month makes it negative
(infinite payback) and a zero mortgage keeps it positive. -/
theorem payback_years_sentinel_witness :
    paybackYears 100000
      (annualCashFlow (scenarioCase {} { price_per_night := some 100 } []
        ScenKey.average_case) 0 10000) = PyNum.posInf ∧
    paybackYears 100000
      (annualCashFlow (scenarioCase {} { price_per_night := some 100 } []
        ScenKey.average_case) 0 0) =
      PyNum.val (100000 /
        annualCashFlow (scenarioCase {} { price_per_night := some 100 } []
          ScenKey.average_case) 0 0) := by
  have hval : annualCashFlow (scenarioCase {} { price_per_night := some 100 } []
      ScenKey.average_case) 0 0 = 20100 := by
    simp +decide only [annualCashFlow, monthlyCashFlow, scenarioCase, avgMarketOccupancy,
      avgMarketAdr, avgMarketCleaningFee, subjectAdr, subjectCleaningFee,
      occFactor, adrFactor, min_def, max_def]
    norm_num [ratTrunc, Int.sign_eq_one_of_pos]
  have hneg : annualCashFlow (scenarioCase {} { price_per_night := some 100 } []
      ScenKey.average_case) 0 10000 = 20100 - 120000 := by
    simp only [annualCashFlow, monthlyCashFlow] at hval ⊢
    linarith
  constructor
  · exact (payback_years_sentinel {} _ [] 0 10000 100000 ScenKey.average_case).1
      (by rw [hneg]; norm_num)
  · exact (payback_years_sentinel {} _ [] 0 0 100000 ScenKey.average_case).2
      (by rw [hval]; norm_num)

/-- Claim C7: with the purchase price unset (zero), a subject record
carrying nightly price, bedrooms and bathrooms yields the heuristic
estimate `price * 365 * 15 * (1 + 0.2 * bedrooms) * (1 + 0.1 * bathrooms)`
clamped into [50000, 5000000]; when any of the three is missing, no
estimate is produced and the fixed default 250000 is used. -/
theorem purchase_price_fallback (inp : FinancialInputs) (subject : PropertyRecord)
    (h : inp.purchase_price = 0) :
    (∀ ppn nbed nbath : ℚ, subject.price_per_night = some ppn →
      subject.num_bedrooms = some nbed → subject.num_bathrooms = some nbath →
      resolvePurchasePrice inp subject =
        max 50000 (min (ppn * 365 * 15 * (1 + nbed * (1/5)) * (1 + nbath * (1/10)))
          5000000)) ∧
    ((subject.price_per_night = none ∨ subject.num_bedrooms = none ∨
      subject.num_bathrooms = none) →
      estimatePropertyValue subject = none ∧ resolvePurchasePrice inp subject = 250000) := by
  constructor
  · intro ppn nbed nbath hp hb hb2
    have hne : subject.isEmpty = false := by
      simp [PropertyRecord.isEmpty, hp]
    simp [resolvePurchasePrice, h, estimatePropertyValue, hne, hp, hb, hb2]
  · intro hmiss
    have hnone : estimatePropertyValue subject = none := by
      unfold estimatePropertyValue
      split
      · rfl
      · rcases hmiss with hm | hm | hm <;>
          rcases hp : subject.price_per_night with _ | p <;>
          rcases hb : subject.num_bedrooms with _ | b <;>
          rcases hc : subject.num_bathrooms with _ | c <;>
          simp_all
    exact ⟨hnone, by simp [resolvePurchasePrice, h, hnone]⟩

/-- Witness for C7: the spec's example subject (price 150, 2 bedrooms,
1.5 bathrooms) with unset purchase price, and an empty subject falling
back to 250000. -/
theorem purchase_price_fallback_witness :
    resolvePurchasePrice {}
      { price_per_night := some 150, num_bedrooms := some 2,
        num_bathrooms := some (3/2) } =
      max 50000 (min ((150 : ℚ) * 365 * 15 * (1 + 2 * (1/5)) * (1 + (3/2) * (1/10)))
        5000000) ∧
    estimatePropertyValue {} = none ∧ resolvePurchasePrice {} {} = 250000 := by
  refine ⟨(purchase_price_fallback {} _ rfl).1 150 2 (3/2) rfl rfl rfl, ?_, ?_⟩
  · exact ((purchase_price_fallback {} {} rfl).2 (Or.inl rfl)).1
  · exact ((purchase_price_fallback {} {} rfl).2 (Or.inl rfl)).2

/-- Claim C8: a comparable lacking a nightly price contributes the
subject's nightly price to the market-ADR list (100 when the subject
also lacks one), a comparable lacking a cleaning fee contributes the
subject's cleaning fee, and every comparable contributes exactly one
element to each list, so missing-field comparables are averaged in, not
excluded. -/
theorem missing_comp_fields_use_subject_values (subject comp : PropertyRecord)
    (comps : List PropertyRecord) (hmem : comp ∈ comps) :
    (comp.price_per_night = none → compAdr subject comp = subjectAdr subject) ∧
    (subject.price_per_night = none → subjectAdr subject = 100) ∧
    (comp.cleaning_fee = none → compCleaningFee subject comp = subjectCleaningFee subject) ∧
    (comp.price_per_night = none → subjectAdr subject ∈ compAdrList subject comps) ∧
    (compAdrList subject comps).length = comps.length ∧
    (compCleaningFeeList subject comps).length = comps.length := by
  refine ⟨fun h => by simp [compAdr, h], fun h => by simp [subjectAdr, h],
    fun h => by simp [compCleaningFee, h], fun h => ?_,
    by simp [compAdrList], by simp [compCleaningFeeList]⟩
  exact List.mem_map.2 ⟨comp, hmem, by simp [compAdr, h]⟩

/-- Witness for C8: a price- and fee-less comparable next to a subject
that also lacks a nightly price. -/
theorem missing_comp_fields_use_subject_values_witness :
    compAdr { cleaning_fee := some 50 } {} = subjectAdr { cleaning_fee := some 50 } ∧
    subjectAdr { cleaning_fee := some 50 } = 100 ∧
    compCleaningFee { cleaning_fee := some 50 } {} =
      subjectCleaningFee { cleaning_fee := some 50 } ∧
    subjectAdr { cleaning_fee := some 50 } ∈ compAdrList { cleaning_fee := some 50 } [{}] ∧
    (compAdrList { cleaning_fee := some 50 } [{}]).length = ([{}] : List PropertyRecord).length ∧
    (compCleaningFeeList { cleaning_fee := some 50 } [{}]).length =
      ([{}] : List PropertyRecord).length := by
  have h := missing_comp_fields_use_subject_values { cleaning_fee := some 50 } {} [{}]
    (List.mem_singleton.2 rfl)
  exact ⟨h.1 rfl, h.2.1 rfl, h.2.2.1 rfl, h.2.2.2.1 rfl, h.2.2.2.2.1, h.2.2.2.2.2⟩

/-- Claim C9: a comparable with reviews but no availability field is
assumed available 300 days, so it still gets the review-based occupancy
`min(0.95, review_count * 4 * average_stay_length / 300)` instead of the
no-data default 0.50. -/
theorem missing_availability_defaults_to_300 (inp : FinancialInputs)
    (comp : PropertyRecord) (rc : ℤ) (hrc : comp.num_reviews = some rc)
    (hpos : 0 < rc) (hav : comp.availability_365 = none) :
    compOccupancy inp comp =
      min (19/20) ((rc : ℚ) * 4 * inp.average_stay_length / 300) := by
  simp only [compOccupancy, hrc, hav, Option.getD_some, Option.getD_none]
  rw [if_pos ⟨hpos, by norm_num⟩]
  push_cast
  ring_nf

/-- Witness for C9: 10 reviews, no availability field, default stay
length; the resulting occupancy is 0.40, not the 0.50 default. -/
theorem missing_availability_defaults_to_300_witness :
    compOccupancy {} { num_reviews := some 10 } =
      min (19/20) ((10 : ℚ) * 4 * ({} : FinancialInputs).average_stay_length / 300) ∧
    min (19/20) ((10 : ℚ) * 4 * ({} : FinancialInputs).average_stay_length / 300) = 2/5 := by
  refine ⟨missing_availability_defaults_to_300 {} _ 10 rfl (by norm_num) rfl, ?_⟩
  rw [min_def]
  norm_num [FinancialInputs.average_stay_length]

/-- Claim C10: override coercion targets the runtime type of the current
value: for the int field `loan_term_years` a float override is truncated
toward zero (20.5 becomes 20), while the string "20.5" fails `int()`
coercion and is skipped. -/
theorem override_coercion_uses_runtime_type (inp : FinancialInputs) :
    (∀ q : ℚ, setInput inp "loan_term_years" (PyVal.pfloat q) =
      { inp with loan_term_years := ratTrunc q }) ∧
    setInput inp "loan_term_years" (PyVal.pfloat (41/2)) =
      { inp with loan_term_years := 20 } ∧
    setInput inp "loan_term_years" (PyVal.pstr "20.5") = inp := by
  refine ⟨fun q => rfl, ?_, rfl⟩
  show (match pyInt (PyVal.pfloat (41/2)) with
    | some n => { inp with loan_term_years := n }
    | none => inp) = { inp with loan_term_years := 20 }
  norm_num [pyInt, ratTrunc, Int.sign_eq_one_of_pos]

end AirbnbUW
